import Mathlib

/-!
Verification of the ReAct SQL agent (react_agent.py, llm_interface.py,
tools.py, database.py) against its specification.

The Python sources are shallowly embedded:

* Python strings are Lean `String`s; `str.strip`, `str.lower`,
  `str.startswith` and slicing are modelled by executable functions over
  the underlying character list (`pyStrip`, `pyLower`, `pyStartsWith`,
  `pyDropChars`).  Whitespace and word characters follow Python's ASCII
  behaviour, which is all the agent's markers use.
* `json.loads` (standard library, external to the repository) is modelled
  by a fuel-indexed recursive-descent parser `jsonLoads` producing `PyVal`
  values.  Restrictions of the model: numeric literals are integers
  (no floats), and `\uXXXX` escapes are not modelled; neither is exercised
  by the agent's argument payloads.
* `pandas.DataFrame` is modelled as a header row plus a list of rows of
  pre-stringified cells; `to_markdown(index=False)` is modelled by a
  pipe-table rendering without column padding (`DataFrame.toMarkdown`).
* A raised Python exception is an `Except.error` carrying the exception
  message; returning normally is `Except.ok`.
* The network call inside `LLMClient.call_llm` is external; its outcome
  (a successful assistant message, or one of the exception classes caught
  in llm_interface.py lines 69-86) is the input `RequestOutcome`, and
  `call_llm` maps it to the tagged response dictionary the orchestrator
  consumes.  A whole run's network behaviour is a function
  `outcomes : Nat -> RequestOutcome` indexed by the reasoning-service
  call number.
-/

/-- Python `str.strip()` whitespace (ASCII): space, \t, \n, \r, \x0b, \x0c. -/
def isPySpace (c : Char) : Bool :=
  c.toNat = 32 || c.toNat = 9 || c.toNat = 10 || c.toNat = 13 || c.toNat = 11 || c.toNat = 12

/-- Regex `\w` word characters (ASCII): letters, digits, underscore. -/
def isWordChar (c : Char) : Bool :=
  (97 ≤ c.toNat && c.toNat ≤ 122) || (65 ≤ c.toNat && c.toNat ≤ 90) ||
    (48 ≤ c.toNat && c.toNat ≤ 57) || c.toNat = 95

/-- Python `str.lower()` on one character (ASCII range, as used by the markers). -/
def pyToLower (c : Char) : Char :=
  if 65 ≤ c.toNat ∧ c.toNat ≤ 90 then Char.ofNat (c.toNat + 32) else c

/-- Strip trailing characters satisfying `p` from a character list. -/
def stripTrailing (p : Char → Bool) (l : List Char) : List Char :=
  (l.reverse.dropWhile p).reverse

/-- Strip leading and trailing characters satisfying `p`. -/
def stripBoth (p : Char → Bool) (l : List Char) : List Char :=
  stripTrailing p (l.dropWhile p)

/-- Python `s.strip()`. -/
def pyStrip (s : String) : String :=
  ⟨stripBoth isPySpace s.data⟩

/-- Python `s.strip("'\"")`: strip single and double quotes from both ends. -/
def isQuoteChar (c : Char) : Bool := c.toNat = 39 || c.toNat = 34

def pyStripQuotes (s : String) : String :=
  ⟨stripBoth isQuoteChar s.data⟩

/-- Python `s.lower()`. -/
def pyLower (s : String) : String :=
  ⟨s.data.map pyToLower⟩

/-- Python `s.startswith(p)`. -/
def pyStartsWith (s p : String) : Bool :=
  p.data.isPrefixOf s.data

/-- Python `s[n:]`. -/
def pyDropChars (n : Nat) (s : String) : String :=
  ⟨s.data.drop n⟩

example : pyStrip "  ab c  " = "ab c" := by decide
example : pyLower "Final Answer: 42" = "final answer: 42" := by decide
example : pyStartsWith "final answer: 42" "final answer:" = true := by decide
example : pyStrip (pyDropChars 13 "Final Answer: 42") = "42" := by decide
example : pyStripQuotes "'SELECT 1'" = "SELECT 1" := by decide

/-! ## Python values and `json.loads` (model of the standard-library JSON parser) -/

/-- A Python value as produced by `json.loads` and consumed as tool kwargs. -/
inductive PyVal where
  | str (s : String)
  | int (n : Int)
  | bool (b : Bool)
  | null
  | list (xs : List PyVal)
  | dict (kvs : List (String × PyVal))
deriving Repr, BEq

/-- Python `dict` insertion: overwrite in place if the key exists, else append. -/
def dictInsert : List (String × PyVal) → String → PyVal → List (String × PyVal)
  | [], k, v => [(k, v)]
  | (k₁, v₁) :: rest, k, v =>
    if k₁ = k then (k₁, v) :: rest else (k₁, v₁) :: dictInsert rest k v

/-- Python `dict.get` / `in` lookup. -/
def dictGet (d : List (String × PyVal)) (k : String) : Option PyVal :=
  (d.find? fun p => p.1 = k).map fun p => p.2

/-- JSON whitespace. -/
def jsonWs (c : Char) : Bool :=
  c.toNat = 32 || c.toNat = 9 || c.toNat = 10 || c.toNat = 13

/-- JSON string body after the opening quote; `\uXXXX` escapes are outside
the model (unused by the agent's payloads). -/
def jparseStringAux : List Char → List Char → Option (String × List Char)
  | [], _ => Option.none
  | '\\' :: [], _ => Option.none
  | '\\' :: e :: r₂, acc =>
    if e = '"' then jparseStringAux r₂ ('"' :: acc)
    else if e = '\\' then jparseStringAux r₂ ('\\' :: acc)
    else if e = '/' then jparseStringAux r₂ ('/' :: acc)
    else if e = 'b' then jparseStringAux r₂ (Char.ofNat 8 :: acc)
    else if e = 'f' then jparseStringAux r₂ (Char.ofNat 12 :: acc)
    else if e = 'n' then jparseStringAux r₂ ('\n' :: acc)
    else if e = 'r' then jparseStringAux r₂ ('\r' :: acc)
    else if e = 't' then jparseStringAux r₂ ('\t' :: acc)
    else Option.none
  | c :: r, acc =>
    if c = '"' then Option.some (⟨acc.reverse⟩, r)
    else jparseStringAux r (c :: acc)

/-- Digits to a natural number. -/
def natOfDigits (ds : List Char) : Nat :=
  ds.foldl (fun n c => n * 10 + (c.toNat - 48)) 0

/-- JSON number; integer literals only (floats unused by the agent). -/
def jparseNumber (l : List Char) : Option (PyVal × List Char) :=
  let (neg, l₁) := match l with
    | '-' :: r => (true, r)
    | _ => (false, l)
  let ds := l₁.takeWhile Char.isDigit
  let rest := l₁.dropWhile Char.isDigit
  match ds with
  | [] => Option.none
  | d :: ds' =>
    if d = '0' ∧ ds' ≠ [] then Option.none
    else
      match rest with
      | '.' :: _ => Option.none
      | 'e' :: _ => Option.none
      | 'E' :: _ => Option.none
      | _ =>
        let n : Int := natOfDigits (d :: ds')
        Option.some (.int (if neg then -n else n), rest)

/-- Parsing mode for the JSON grammar: a single value, the member list of
an object, or the element list of an array. -/
inductive JMode where
  | value
  | members (acc : List (String × PyVal))
  | elements (acc : List PyVal)

/-- Fuel-indexed recursive-descent JSON parser. -/
def jparse : Nat → JMode → List Char → Option (PyVal × List Char)
  | 0, _, _ => Option.none
  | fuel + 1, .value, l =>
    match l.dropWhile jsonWs with
    | [] => Option.none
    | c :: rest =>
      if c = '"' then (jparseStringAux rest []).map fun p => (PyVal.str p.1, p.2)
      else if c = '{' then
        match rest.dropWhile jsonWs with
        | '}' :: r => Option.some (.dict [], r)
        | _ => jparse fuel (.members []) rest
      else if c = '[' then
        match rest.dropWhile jsonWs with
        | ']' :: r => Option.some (.list [], r)
        | _ => jparse fuel (.elements []) rest
      else if c = 't' then
        if rest.take 3 = ['r', 'u', 'e'] then Option.some (.bool true, rest.drop 3)
        else Option.none
      else if c = 'f' then
        if rest.take 4 = ['a', 'l', 's', 'e'] then Option.some (.bool false, rest.drop 4)
        else Option.none
      else if c = 'n' then
        if rest.take 3 = ['u', 'l', 'l'] then Option.some (.null, rest.drop 3)
        else Option.none
      else jparseNumber (c :: rest)
  | fuel + 1, .members acc, l =>
    match l.dropWhile jsonWs with
    | '"' :: rest =>
      match jparseStringAux rest [] with
      | Option.some (k, r₁) =>
        match r₁.dropWhile jsonWs with
        | ':' :: r₂ =>
          match jparse fuel .value r₂ with
          | Option.some (v, r₃) =>
            match r₃.dropWhile jsonWs with
            | ',' :: r₄ => jparse fuel (.members (dictInsert acc k v)) r₄
            | '}' :: r₄ => Option.some (.dict (dictInsert acc k v), r₄)
            | _ => Option.none
          | Option.none => Option.none
        | _ => Option.none
      | Option.none => Option.none
    | _ => Option.none
  | fuel + 1, .elements acc, l =>
    match jparse fuel .value l with
    | Option.some (v, r) =>
      match r.dropWhile jsonWs with
      | ',' :: r₂ => jparse fuel (.elements (acc ++ [v])) r₂
      | ']' :: r₂ => Option.some (.list (acc ++ [v]), r₂)
      | _ => Option.none
    | Option.none => Option.none

/-- Model of Python `json.loads`: parse one value and require only
whitespace to remain. -/
def jsonLoads (s : String) : Option PyVal :=
  match jparse (s.length + 1) .value s.data with
  | Option.some (v, rest) => if rest.dropWhile jsonWs = [] then Option.some v else Option.none
  | Option.none => Option.none

/-- The textual message of a `json.JSONDecodeError`.  Modelled: the exact
library message is immaterial to the orchestrator, which only interpolates
it into an observation. -/
def jsonDecodeErrMsg : String := "Expecting value: line 1 column 1 (char 0)"

example : jsonLoads "\x7b\"query\": \"SELECT 1\"\x7d" =
    Option.some (PyVal.dict [("query", PyVal.str "SELECT 1")]) := rfl
example : jsonLoads "\x7bquery='SELECT 1'\x7d" = Option.none := rfl
example : jsonLoads "'SELECT 1'" = Option.none := rfl
example : jsonLoads " -12 " = Option.some (PyVal.int (-12)) := rfl
example : jsonLoads "[1, true, null]" =
    Option.some (PyVal.list [PyVal.int 1, PyVal.bool true, PyVal.null]) := rfl

/-! ## pandas model: DataFrames and their markdown rendering -/

/-- A `pandas.DataFrame`: column names plus rows of pre-stringified cells. -/
structure DataFrame where
  columns : List String
  rows : List (List String)
deriving Repr

/-- `df.empty` (model: no rows). -/
def DataFrame.isEmpty (df : DataFrame) : Bool := df.rows.isEmpty

/-- `df.head(n)`. -/
def DataFrame.head (df : DataFrame) (n : Nat) : DataFrame :=
  ⟨df.columns, df.rows.take n⟩

/-- One pipe-table line. -/
def markdownRow (cells : List String) : String :=
  "| " ++ String.intercalate " | " cells ++ " |"

/-- `df.to_markdown(index=False)` (tabulate pipe format; the model omits
column-width padding, keeping the rendering length-monotone in the cells). -/
def DataFrame.toMarkdown (df : DataFrame) : String :=
  String.intercalate "\n"
    (markdownRow df.columns ::
      markdownRow (df.columns.map fun _ => "---") ::
      df.rows.map markdownRow)

/-- The value a tool invocation returns: a DataFrame or any other Python
value carried as its `str()` rendering. -/
inductive ToolResult where
  | dataFrame (df : DataFrame)
  | scalar (s : String)
deriving Repr

/-- Python `str()` of a tool result (for a DataFrame: its textual table
rendering, modelled with the same pipe-table model). -/
def strOfToolResult : ToolResult → String
  | .dataFrame df => df.toMarkdown
  | .scalar s => s

/-! ## tools.py -/

/-- `Tool` (tools.py lines 23-42): name, description, an optional
argument-schema validator (the Pydantic model: `Except.error` is a raised
`ValidationError`, `Except.ok` the `model_dump()` of the validated model),
and the underlying function (`Except.error` is an exception it raises). -/
structure Tool where
  name : String
  description : String
  args_schema : Option (List (String × PyVal) → Except String (List (String × PyVal)))
  func : List (String × PyVal) → Except String ToolResult

/-- `Tool.run` (tools.py lines 32-42): validate `kwargs` against the schema
when present, re-raising a `ValidationError` as a `ValueError` with the
"argument validation failed" message, then call the underlying function. -/
def Tool.run (t : Tool) (kwargs : List (String × PyVal)) : Except String ToolResult :=
  match t.args_schema with
  | Option.some schema =>
    match schema kwargs with
    | .ok validated_args => t.func validated_args
    | .error e => .error ("Tool '" ++ t.name ++ "' argument validation failed: " ++ e)
  | Option.none => t.func kwargs

/-- Pydantic validation of `SQLQueryParams` (tools.py lines 64-68):
one required `str` field `query`; extra keys are ignored (Pydantic v2
default), a missing or non-string `query` raises a `ValidationError`.
The message text models the library's. -/
def SQLQueryParams.validate (kwargs : List (String × PyVal)) :
    Except String (List (String × PyVal)) :=
  match dictGet kwargs "query" with
  | Option.some (.str q) => .ok [("query", .str q)]
  | Option.some _ => .error "1 validation error for SQLQueryParams: query: Input should be a valid string"
  | Option.none => .error "1 validation error for SQLQueryParams: query: Field required"

/-- Pydantic validation of `DescribeTableParams` (tools.py lines 82-83):
one required `str` field `table_name`. -/
def DescribeTableParams.validate (kwargs : List (String × PyVal)) :
    Except String (List (String × PyVal)) :=
  match dictGet kwargs "table_name" with
  | Option.some (.str t) => .ok [("table_name", .str t)]
  | Option.some _ => .error "1 validation error for DescribeTableParams: table_name: Input should be a valid string"
  | Option.none => .error "1 validation error for DescribeTableParams: table_name: Field required"

/-! ## database.py

The SQLite engine is external: it is a function from a query string to
either a DataFrame or the message of the exception the engine raises. -/

/-- `execute_sql_query` (database.py lines 43-55): run the query; an engine
exception becomes a one-row `error` DataFrame, never a raised exception. -/
def execute_sql_query (engine : String → Except String DataFrame) (query : String) :
    Except String ToolResult :=
  match engine query with
  | .ok df => .ok (.dataFrame df)
  | .error e => .ok (.dataFrame ⟨["error"], [[e]]⟩)

/-- Project a DataFrame onto named columns (pandas column selection). -/
def DataFrame.selectColumns (df : DataFrame) (cols : List String) : DataFrame :=
  let idxs := cols.filterMap fun c => (df.columns.indexOf? c)
  ⟨cols, df.rows.map fun r => idxs.filterMap fun i => r.get? i⟩

/-- `get_table_schema` (database.py lines 58-74): PRAGMA query through the
engine; on a non-empty result select and rename the four schema columns;
an engine exception becomes a one-row `error` DataFrame. -/
def get_table_schema (engine : String → Except String DataFrame) (table_name : String) :
    Except String ToolResult :=
  match engine ("PRAGMA table_info(" ++ table_name ++ ");") with
  | .ok schema_df =>
    if schema_df.isEmpty then .ok (.dataFrame schema_df)
    else
      .ok (.dataFrame
        { schema_df.selectColumns ["name", "type", "notnull", "pk"] with
          columns := ["Column Name", "Data Type", "Not Null", "Primary Key"] })
  | .error e => .ok (.dataFrame ⟨["error"], [[e]]⟩)

/-- `sql_query_tool` (tools.py lines 72-78), over a given SQL engine. -/
def sql_query_tool (engine : String → Except String DataFrame) : Tool where
  name := "sql_query"
  description := "Executes a SQL query on the 'call_records' database."
  args_schema := Option.some SQLQueryParams.validate
  func := fun kwargs =>
    match dictGet kwargs "query" with
    | Option.some (.str q) => execute_sql_query engine q
    | _ => .error "execute_sql_query() missing 1 required positional argument: 'query'"

/-- `describe_table_tool` (tools.py lines 87-93), over a given SQL engine. -/
def describe_table_tool (engine : String → Except String DataFrame) : Tool where
  name := "describe_table"
  description := "Returns the schema of a specified table."
  args_schema := Option.some DescribeTableParams.validate
  func := fun kwargs =>
    match dictGet kwargs "table_name" with
    | Option.some (.str t) => get_table_schema engine t
    | _ => .error "get_table_schema() missing 1 required positional argument: 'table_name'"

/-- `ALL_TOOLS` (tools.py lines 95-98), over a given SQL engine. -/
def ALL_TOOLS (engine : String → Except String DataFrame) : List Tool :=
  [sql_query_tool engine, describe_table_tool engine]

/-- Python `dict` lookup `self.tools[name]` / `name in self.tools`. -/
def findTool (tools : List Tool) (name : String) : Option Tool :=
  tools.find? fun t => t.name = name

/-! ## llm_interface.py -/

/-- One structured call request as returned by the reasoning service
(`{"name": ..., "arguments": <JSON string>}`, llm_interface.py lines 57-62). -/
structure ToolCallReq where
  name : String
  arguments : String
deriving Repr

/-- The tagged response dictionary `call_llm` hands the orchestrator. -/
inductive LLMResponse where
  | toolCalls (calls : List ToolCallReq)
  | text (content : String)
  | empty
  | error (content : String)
deriving Repr

/-- The assistant message inside a successful HTTP response: a possibly
absent `tool_calls` list ( `[]` models absent/falsy) and a possibly absent
`content` string ( `""` models absent/falsy). -/
structure AssistantMessage where
  tool_calls : List ToolCallReq
  content : String
deriving Repr

/-- The outcome of the one HTTP round trip inside `call_llm`: either a
successful response carrying an assistant message, or one of the exception
classes caught at llm_interface.py lines 69-86. -/
inductive RequestOutcome where
  | success (msg : AssistantMessage)
  | httpError (err : String) (body : String)
  | connectionError (err : String)
  | timeoutError (err : String)
  | requestError (err : String)
  | jsonError (err : String)
  | otherError (err : String)

/-- `LLMClient.call_llm` (llm_interface.py lines 24-86) after the network
round trip: classify a successful message as tool calls, text, or empty;
map each caught exception to an `error` response with its fixed prefix. -/
def call_llm : RequestOutcome → LLMResponse
  | .success m =>
    if m.tool_calls.isEmpty = false then .toolCalls m.tool_calls
    else if m.content = "" then .empty
    else .text m.content
  | .httpError e body => .error ("HTTP Error: " ++ e ++ " - " ++ body)
  | .connectionError e => .error ("Connection Error: " ++ e)
  | .timeoutError e => .error ("Timeout Error: " ++ e)
  | .requestError e => .error ("Request Error: " ++ e)
  | .jsonError e => .error ("JSON Decode Error: " ++ e)
  | .otherError e => .error ("Unknown Error: " ++ e)

/-! ## react_agent.py -/

/-- The tagged result of `_parse_llm_response` (react_agent.py lines
50-86): `parseError` is the `{"type": "error"}` dictionary of line 82. -/
inductive Parsed where
  | thought (content : String)
  | action (tool_name : String) (tool_args : List (String × PyVal))
  | parseError (content : String)
  | finalAnswer (content : String)
  | text (content : String)
deriving Repr

/-- `re.match(r"Action:\s*(\w+)\((.*)\)", s, re.IGNORECASE)` (react_agent.py
line 61): anchored at the start, a case-insensitive literal `Action:`,
optional whitespace, a non-empty greedy run of word characters, a literal
`(`, then — since `.` does not cross a newline and `(.*)` is greedy — the
argument text runs to the last `)` of the remaining first line.  Returns
`(group 1, group 2)` on a match. -/
def actionRegexMatch (s : String) : Option (String × String) :=
  if (s.data.take 7).map pyToLower = "action:".data then
    let afterMarker := (s.data.drop 7).dropWhile isPySpace
    let nm := afterMarker.takeWhile isWordChar
    let afterName := afterMarker.dropWhile isWordChar
    if nm.isEmpty then Option.none
    else
      match afterName with
      | '(' :: afterParen =>
        let line := afterParen.takeWhile fun c => c ≠ '\n'
        match line.reverse.dropWhile (fun c => c ≠ ')') with
        | [] => Option.none
        | _ :: beforeCloseRev => Option.some (⟨nm⟩, ⟨beforeCloseRev.reverse⟩)
      | _ => Option.none
  else Option.none

/-- Split a character list at every occurrence of `sep` (Python
`str.split(sep)` for a one-character separator). -/
def splitCharList (sep : Char) : List Char → List (List Char)
  | [] => [[]]
  | c :: r =>
    match splitCharList sep r with
    | [] => [[]]
    | cur :: rest => if c = sep then [] :: cur :: rest else (c :: cur) :: rest

/-- Python `s.split(sep)` for a one-character separator. -/
def pySplitOn (s : String) (sep : Char) : List String :=
  (splitCharList sep s.data).map fun l => ⟨l⟩

/-- Python `pair.split('=', 1)` plus the `'=' in pair` guard: `none` when
the pair has no `=`, else the parts before and after the first `=`. -/
def splitOnFirstEq (pair : String) : Option (String × String) :=
  match pair.data.dropWhile (fun c => c ≠ '=') with
  | [] => Option.none
  | _ :: valueChars => Option.some (⟨pair.data.takeWhile fun c => c ≠ '='⟩, ⟨valueChars⟩)

/-- The argument extraction of the `Action:` branch (react_agent.py lines
65-79): try `json.loads("{" + args_str + "}")`; on failure split on commas
and first `=`, parse each value as a JSON literal, and degrade to a
trimmed, quote-stripped string. -/
def parseActionArgs (args_str : String) : List (String × PyVal) :=
  match jsonLoads ("\x7b" ++ args_str ++ "\x7d") with
  | Option.some (.dict kvs) => kvs
  | _ =>
    (pySplitOn args_str ',').foldl
      (fun args arg_pair =>
        match splitOnFirstEq arg_pair with
        | Option.none => args
        | Option.some (key, value) =>
          match jsonLoads (pyStrip value) with
          | Option.some v => dictInsert args (pyStrip key) v
          | Option.none => dictInsert args (pyStrip key) (.str (pyStripQuotes (pyStrip value))))
      []

/-- `_parse_llm_response` (react_agent.py lines 50-86). -/
def parse_llm_response (response_content : String) : Parsed :=
  let content_lower := pyLower (pyStrip response_content)
  if pyStartsWith content_lower "thought:" then
    .thought (pyStrip (pyDropChars 8 response_content))
  else if pyStartsWith content_lower "action:" then
    match actionRegexMatch response_content with
    | Option.some (tool_name, args_str) => .action tool_name (parseActionArgs args_str)
    | Option.none => .parseError ("Invalid Action format: " ++ response_content)
  else if pyStartsWith content_lower "final answer:" then
    .finalAnswer (pyStrip (pyDropChars 13 response_content))
  else
    .text (pyStrip response_content)

/-- One turn of `self.chat_history`: the `assistantCall` variant is the
assistant turn carrying a `tool_calls` list (react_agent.py lines 151-154),
`tool` is a `"role": "tool"` result turn. -/
inductive Turn where
  | system (content : String)
  | user (content : String)
  | assistant (content : String)
  | assistantCall (name : String) (arguments : String)
  | tool (content : String)
deriving Repr, DecidableEq

/-- The fixed truncation notice (react_agent.py line 163). -/
def truncationNotice : String :=
  "\n... (results truncated due to length, showing first 5 rows)"

/-- The observation formatter (react_agent.py lines 159-165): a DataFrame
is rendered as markdown, falling back to the first five rows plus the
truncation notice when the rendering exceeds 2000 characters; any other
result is stringified directly. -/
def formatObservation : ToolResult → String
  | .dataFrame df =>
    let observation_str := df.toMarkdown
    if observation_str.length > 2000 then
      (df.head 5).toMarkdown ++ truncationNotice
    else observation_str
  | .scalar s => s

/-- The message of the `TypeError` Python raises when `run(**tool_args)`
unpacks a non-dict (modelled text; caught by the blanket handler at
react_agent.py line 167). -/
def splatErrMsg : String := "run() argument after ** must be a mapping"

/-- Processing of one structured call request (react_agent.py lines
131-171): an unknown tool or an unparsable argument payload appends a
single tool-result turn and moves on; otherwise the assistant tool-call
turn is appended, the tool is run — any exception caught — and the
formatted observation is appended as a tool-result turn. -/
def processToolCall (tools : List Tool) (history : List Turn) (tc : ToolCallReq) :
    List Turn :=
  match findTool tools tc.name with
  | Option.none =>
    history ++ [Turn.tool ("Error: Tool '" ++ tc.name ++ "' not found.")]
  | Option.some tool =>
    match jsonLoads tc.arguments with
    | Option.none =>
      history ++ [Turn.tool ("Error parsing tool arguments for " ++ tc.name ++ ": " ++
        jsonDecodeErrMsg ++ ". Raw arguments: " ++ tc.arguments)]
    | Option.some tool_args =>
      let history₁ := history ++ [Turn.assistantCall tc.name tc.arguments]
      let observation_str :=
        match tool_args with
        | .dict kvs =>
          match tool.run kvs with
          | .ok result => formatObservation result
          | .error e => "Tool execution failed: " ++ e
        | _ => "Tool execution failed: " ++ splatErrMsg
      history₁ ++ [Turn.tool observation_str]

/-- The `for tool_call in tool_calls` loop (react_agent.py line 131). -/
def processToolCalls (tools : List Tool) (tcs : List ToolCallReq) (history : List Turn) :
    List Turn :=
  tcs.foldl (processToolCall tools) history

/-- What a run returns together with the final `chat_history` and the
number of reasoning-service calls it made. -/
structure RunResult where
  answer : String
  history : List Turn
  llmCalls : Nat
deriving Repr

/-- The `for step in range(max_steps)` loop of `run` (react_agent.py lines
121-195).  `fuel` is the number of remaining iterations, `calls` the number
of reasoning-service calls already made (the next call is `outcomes calls`). -/
def runLoop (tools : List Tool) (outcomes : Nat → RequestOutcome) :
    Nat → Nat → List Turn → RunResult
  | 0, calls, history =>
    ⟨"Max steps reached without providing a final answer.", history, calls⟩
  | fuel + 1, calls, history =>
    match call_llm (outcomes calls) with
    | .toolCalls tcs =>
      runLoop tools outcomes fuel (calls + 1) (processToolCalls tools tcs history)
    | .text content =>
      match parse_llm_response content with
      | .finalAnswer ans => ⟨ans, history ++ [Turn.assistant content], calls + 1⟩
      | _ => runLoop tools outcomes fuel (calls + 1) (history ++ [Turn.assistant content])
    | .error content =>
      ⟨"Agent terminated due to LLM communication error: " ++ content, history, calls + 1⟩
    | .empty =>
      ⟨"Agent terminated due to unexpected LLM response type.", history, calls + 1⟩

/-- The templates loaded from prompts.yaml.  Modelled from the spec: the
prompts file is not part of the sources; `system_message_template` stands
for `str.format` applied to the template with the two interpolated fields. -/
structure Prompts where
  system_message_template : String → String → String
  initial_user_query_for_schema : String

/-- `"\n".join("  - {name}: {description}")` over the registry
(react_agent.py lines 38-40). -/
def toolDescriptions (tools : List Tool) : String :=
  String.intercalate "\n" (tools.map fun t => "  - " ++ t.name ++ ": " ++ t.description)

/-- `ReActAgent.run` (react_agent.py lines 88-195): schema discovery, the
system and user turns, then the bounded loop.  The Python default for
`max_steps` is 10. -/
def ReActAgent.run (tools : List Tool) (prompts : Prompts)
    (outcomes : Nat → RequestOutcome) (task : String) (max_steps : Nat := 10) :
    RunResult :=
  let initial_db_info :=
    match findTool tools "describe_table" with
    | Option.some schema_tool =>
      match schema_tool.run [("table_name", .str "call_records")] with
      | .ok (.dataFrame schema_df) =>
        if schema_df.isEmpty = false then
          "Table 'call_records' schema:\n" ++ schema_df.toMarkdown
        else
          "Could not retrieve schema for 'call_records': " ++
            strOfToolResult (.dataFrame schema_df)
      | .ok r => "Could not retrieve schema for 'call_records': " ++ strOfToolResult r
      | .error e => "Error executing describe_table during init: " ++ e
    | Option.none =>
      "Table 'call_records' is the primary table. Its schema is unknown; LLM should use `describe_table` tool to find it."
  let system_message :=
    prompts.system_message_template (toolDescriptions tools) initial_db_info
  let history := [Turn.system (pyStrip system_message), Turn.user task]
  runLoop tools outcomes max_steps 0 history

/-! ## Helper lemmas -/

theorem charToNat_ofNat_small (n : Nat) (h : n < 55296) : (Char.ofNat n).toNat = n := by
  have hv : Nat.isValidChar n := Or.inl h
  rw [Char.ofNat, dif_pos hv]
  simp only [Char.ofNatAux, Char.toNat, UInt32.ofNat', UInt32.toNat]
  simp [BitVec.toNat_ofNatLt]

theorem isPySpace_pyToLower (c : Char) : isPySpace (pyToLower c) = isPySpace c := by
  unfold pyToLower
  split
  · rename_i h
    have ht : (Char.ofNat (c.toNat + 32)).toNat = c.toNat + 32 :=
      charToNat_ofNat_small _ (by omega)
    have h1 : isPySpace (Char.ofNat (c.toNat + 32)) = false := by
      simp only [isPySpace, ht, Bool.or_eq_false_iff, decide_eq_false_iff_not]
      omega
    have h2 : isPySpace c = false := by
      simp only [isPySpace, Bool.or_eq_false_iff, decide_eq_false_iff_not]
      omega
    rw [h1, h2]
  · rfl

theorem word_not_space (c : Char) (h : isWordChar c = true) : isPySpace c = false := by
  simp only [isWordChar, Bool.or_eq_true, Bool.and_eq_true, decide_eq_true_eq] at h
  simp only [isPySpace, Bool.or_eq_false_iff, decide_eq_false_iff_not]
  omega

theorem isPrefixOf_append_self (p t : List Char) : p.isPrefixOf (p ++ t) = true := by
  induction p with
  | nil => simp [List.isPrefixOf]
  | cons a as ih => simp [List.isPrefixOf, ih]

theorem isPrefixOf_head_ne (a b : Char) (p l : List Char) (h : a ≠ b) :
    (a :: p).isPrefixOf (b :: l) = false := by
  simp [List.isPrefixOf, h]

theorem takeWhile_append_all (p : Char → Bool) (A B : List Char)
    (h : ∀ c ∈ A, p c = true) : (A ++ B).takeWhile p = A ++ B.takeWhile p := by
  induction A with
  | nil => simp
  | cons a as ih =>
    have ha : p a = true := h a (List.mem_cons_self a as)
    have ih' := ih fun c hc => h c (List.mem_cons_of_mem a hc)
    simp [List.takeWhile_cons, ha, ih']

theorem dropWhile_append_all (p : Char → Bool) (A B : List Char)
    (h : ∀ c ∈ A, p c = true) : (A ++ B).dropWhile p = B.dropWhile p := by
  induction A with
  | nil => simp
  | cons a as ih =>
    have ha : p a = true := h a (List.mem_cons_self a as)
    have ih' := ih fun c hc => h c (List.mem_cons_of_mem a hc)
    simp [List.dropWhile_cons, ha, ih']

theorem takeWhile_all (p : Char → Bool) (A : List Char)
    (h : ∀ c ∈ A, p c = true) : A.takeWhile p = A := by
  induction A with
  | nil => simp
  | cons a as ih =>
    have ha : p a = true := h a (List.mem_cons_self a as)
    have ih' := ih fun c hc => h c (List.mem_cons_of_mem a hc)
    simp [List.takeWhile_cons, ha, ih']

theorem dropWhile_cons_false (p : Char → Bool) (c : Char) (X : List Char)
    (h : p c = false) : (c :: X).dropWhile p = c :: X := by
  simp [List.dropWhile_cons, h]

theorem stripTrailing_append (p : Char → Bool) (L R : List Char)
    (e : Char) (T : List Char) (hrev : L.reverse = e :: T) (he : p e = false) :
    stripTrailing p (L ++ R) = L ++ stripTrailing p R := by
  unfold stripTrailing
  rw [List.reverse_append, List.dropWhile_append]
  by_cases hR : (R.reverse.dropWhile p).isEmpty = true
  · rw [if_pos hR, hrev, dropWhile_cons_false p e T he, ← hrev]
    rw [List.isEmpty_iff] at hR
    rw [hR]
    simp
  · rw [if_neg hR]
    simp

/-! ## Agent-level helper definitions and lemmas -/

/-- The contents of the `"role": "tool"` turns of a history, in order. -/
def toolTurnContents (history : List Turn) : List String :=
  history.filterMap fun t =>
    match t with
    | Turn.tool c => Option.some c
    | _ => Option.none

/-- The one tool-result observation `processToolCall` appends for a
request, by the branch taken (unknown tool / malformed payload / executed). -/
def observationOf (tools : List Tool) (tc : ToolCallReq) : String :=
  match findTool tools tc.name with
  | Option.none => "Error: Tool '" ++ tc.name ++ "' not found."
  | Option.some tool =>
    match jsonLoads tc.arguments with
    | Option.none =>
      "Error parsing tool arguments for " ++ tc.name ++ ": " ++
        jsonDecodeErrMsg ++ ". Raw arguments: " ++ tc.arguments
    | Option.some tool_args =>
      match tool_args with
      | .dict kvs =>
        match tool.run kvs with
        | .ok result => formatObservation result
        | .error e => "Tool execution failed: " ++ e
      | _ => "Tool execution failed: " ++ splatErrMsg

theorem toolTurnContents_append (h₁ h₂ : List Turn) :
    toolTurnContents (h₁ ++ h₂) = toolTurnContents h₁ ++ toolTurnContents h₂ := by
  simp [toolTurnContents, List.filterMap_append]

theorem toolTurnContents_processToolCall (tools : List Tool) (history : List Turn)
    (tc : ToolCallReq) :
    toolTurnContents (processToolCall tools history tc) =
      toolTurnContents history ++ [observationOf tools tc] := by
  unfold processToolCall observationOf
  rcases hf : findTool tools tc.name with _ | tool
  · simp [toolTurnContents_append, toolTurnContents]
  · rcases hj : jsonLoads tc.arguments with _ | v
    · simp [toolTurnContents_append, toolTurnContents]
    · rcases v with s | n | b | _ | xs | kvs <;>
        simp [toolTurnContents_append, toolTurnContents]

theorem toolTurnContents_processToolCalls (tools : List Tool) (tcs : List ToolCallReq)
    (history : List Turn) :
    toolTurnContents (processToolCalls tools tcs history) =
      toolTurnContents history ++ tcs.map (observationOf tools) := by
  induction tcs generalizing history with
  | nil => simp [processToolCalls]
  | cons tc rest ih =>
    show toolTurnContents (processToolCalls tools rest (processToolCall tools history tc)) = _
    rw [ih, toolTurnContents_processToolCall]
    simp

/-- One loop iteration, by the shape of the reasoning-service response. -/
theorem runLoop_succ (tools : List Tool) (outcomes : Nat → RequestOutcome)
    (fuel calls : Nat) (history : List Turn) :
    runLoop tools outcomes (fuel + 1) calls history =
      match call_llm (outcomes calls) with
      | .toolCalls tcs =>
        runLoop tools outcomes fuel (calls + 1) (processToolCalls tools tcs history)
      | .text content =>
        match parse_llm_response content with
        | .finalAnswer ans => ⟨ans, history ++ [Turn.assistant content], calls + 1⟩
        | _ => runLoop tools outcomes fuel (calls + 1) (history ++ [Turn.assistant content])
      | .error content =>
        ⟨"Agent terminated due to LLM communication error: " ++ content, history, calls + 1⟩
      | .empty =>
        ⟨"Agent terminated due to unexpected LLM response type.", history, calls + 1⟩ := rfl

theorem runLoop_toolCalls (tools : List Tool) (outcomes : Nat → RequestOutcome)
    (fuel calls : Nat) (history : List Turn) (tcs : List ToolCallReq)
    (h : call_llm (outcomes calls) = .toolCalls tcs) :
    runLoop tools outcomes (fuel + 1) calls history =
      runLoop tools outcomes fuel (calls + 1) (processToolCalls tools tcs history) := by
  rw [runLoop_succ, h]

theorem runLoop_text_eq (tools : List Tool) (outcomes : Nat → RequestOutcome)
    (fuel calls : Nat) (history : List Turn) (content : String)
    (h : call_llm (outcomes calls) = .text content) :
    runLoop tools outcomes (fuel + 1) calls history =
      match parse_llm_response content with
      | .finalAnswer ans => ⟨ans, history ++ [Turn.assistant content], calls + 1⟩
      | _ => runLoop tools outcomes fuel (calls + 1) (history ++ [Turn.assistant content]) := by
  rw [runLoop_succ, h]

theorem runLoop_error_eq (tools : List Tool) (outcomes : Nat → RequestOutcome)
    (fuel calls : Nat) (history : List Turn) (content : String)
    (h : call_llm (outcomes calls) = .error content) :
    runLoop tools outcomes (fuel + 1) calls history =
      ⟨"Agent terminated due to LLM communication error: " ++ content,
        history, calls + 1⟩ := by
  rw [runLoop_succ, h]

theorem runLoop_empty_eq (tools : List Tool) (outcomes : Nat → RequestOutcome)
    (fuel calls : Nat) (history : List Turn)
    (h : call_llm (outcomes calls) = .empty) :
    runLoop tools outcomes (fuel + 1) calls history =
      ⟨"Agent terminated due to unexpected LLM response type.", history, calls + 1⟩ := by
  rw [runLoop_succ, h]

/-- `isFinalAnswerOf p = true` iff the parsed response is a final answer. -/
def isFinalAnswerOf : Parsed → Bool
  | .finalAnswer _ => true
  | _ => false

/-- A reasoning-service response on which the loop continues to another
iteration (neither a final answer nor a terminal error / empty response). -/
def continuesLoop : LLMResponse → Bool
  | .toolCalls _ => true
  | .text content => !(isFinalAnswerOf (parse_llm_response content))
  | .error _ => false
  | .empty => false

/-- Prompt templates used to instantiate runs in concrete scenarios. -/
def testPrompts : Prompts :=
  ⟨fun tool_descriptions initial_db_info =>
    "You are a data analysis agent.\nTools:\n" ++ tool_descriptions ++ "\n" ++ initial_db_info,
   "Please describe the call_records table."⟩

/-- Call-count bound for the loop: at most one reasoning-service call per
remaining iteration. -/
theorem runLoop_llmCalls_le (tools : List Tool) (outcomes : Nat → RequestOutcome) :
    ∀ (fuel calls : Nat) (history : List Turn),
      (runLoop tools outcomes fuel calls history).llmCalls ≤ calls + fuel := by
  intro fuel
  induction fuel with
  | zero => intro calls history; simp [runLoop]
  | succ fuel ih =>
    intro calls history
    cases h : call_llm (outcomes calls) with
    | toolCalls tcs =>
      rw [runLoop_toolCalls tools outcomes fuel calls history tcs h]
      exact Nat.le_trans (ih (calls + 1) (processToolCalls tools tcs history)) (by omega)
    | text content =>
      rw [runLoop_text_eq tools outcomes fuel calls history content h]
      cases hp : parse_llm_response content with
      | finalAnswer ans => show calls + 1 ≤ calls + (fuel + 1); omega
      | thought c =>
        exact Nat.le_trans (ih (calls + 1) (history ++ [Turn.assistant content])) (by omega)
      | action n a =>
        exact Nat.le_trans (ih (calls + 1) (history ++ [Turn.assistant content])) (by omega)
      | parseError c =>
        exact Nat.le_trans (ih (calls + 1) (history ++ [Turn.assistant content])) (by omega)
      | text c =>
        exact Nat.le_trans (ih (calls + 1) (history ++ [Turn.assistant content])) (by omega)
    | error content =>
      rw [runLoop_error_eq tools outcomes fuel calls history content h]
      show calls + 1 ≤ calls + (fuel + 1); omega
    | empty =>
      rw [runLoop_empty_eq tools outcomes fuel calls history h]
      show calls + 1 ≤ calls + (fuel + 1); omega

/-- If every reasoning-service response lets the loop continue, the loop
runs out of fuel and returns the budget-exceeded message. -/
theorem runLoop_all_continuing (tools : List Tool) (outcomes : Nat → RequestOutcome)
    (hcont : ∀ k, continuesLoop (call_llm (outcomes k)) = true) :
    ∀ (fuel calls : Nat) (history : List Turn),
      (runLoop tools outcomes fuel calls history).answer =
        "Max steps reached without providing a final answer." := by
  intro fuel
  induction fuel with
  | zero => intro calls history; rfl
  | succ fuel ih =>
    intro calls history
    have hk := hcont calls
    cases h : call_llm (outcomes calls) with
    | toolCalls tcs =>
      rw [runLoop_toolCalls tools outcomes fuel calls history tcs h]
      exact ih (calls + 1) (processToolCalls tools tcs history)
    | text content =>
      rw [runLoop_text_eq tools outcomes fuel calls history content h]
      rw [h] at hk
      simp only [continuesLoop, Bool.not_eq_true'] at hk
      cases hp : parse_llm_response content with
      | finalAnswer ans => rw [hp] at hk; exact absurd hk (by simp [isFinalAnswerOf])
      | thought c => exact ih (calls + 1) (history ++ [Turn.assistant content])
      | action n a => exact ih (calls + 1) (history ++ [Turn.assistant content])
      | parseError c => exact ih (calls + 1) (history ++ [Turn.assistant content])
      | text c => exact ih (calls + 1) (history ++ [Turn.assistant content])
    | error content => rw [h] at hk; exact absurd hk (by simp [continuesLoop])
    | empty => rw [h] at hk; exact absurd hk (by simp [continuesLoop])

/-- `ReActAgent.run` is the loop started on the seeded transcript. -/
theorem run_eq_runLoop (tools : List Tool) (prompts : Prompts)
    (outcomes : Nat → RequestOutcome) (task : String) (N : Nat) :
    ∃ history₀, ReActAgent.run tools prompts outcomes task N =
      runLoop tools outcomes N 0 history₀ :=
  ⟨_, rfl⟩

/-! ## Test fixtures for concrete scenarios -/

/-- A deterministic SQL engine for concrete scenarios: echoes the query. -/
def testEngine : String → Except String DataFrame :=
  fun q => .ok ⟨["result"], [[q]]⟩

/-- Three call requests in one batch: an unregistered tool, a malformed
payload, and a successful invocation. -/
def wTcs : List ToolCallReq :=
  [⟨"foo_tool", "\x7b\x7d"⟩, ⟨"sql_query", "not json"⟩,
   ⟨"sql_query", "\x7b\"query\": \"SELECT 1\"\x7d"⟩]

/-- An oracle that always returns the `wTcs` batch. -/
def wOutcomesBatch : Nat → RequestOutcome :=
  fun _ => RequestOutcome.success ⟨wTcs, ""⟩

/-- An oracle that always returns plain, unparseable text. -/
def wOutcomesText : Nat → RequestOutcome :=
  fun _ => RequestOutcome.success ⟨[], "I am thinking about the data."⟩

/-! ## Claim theorems -/

/-- C1: for every batch of structured call requests returned by one
reasoning-service call, the loop appends exactly one tool-result turn per
request, in request order, whatever branch each request takes (success,
unknown tool, malformed payload); and the next reasoning-service call is
made only after the whole batch is processed, since the iteration for a
`toolCalls` response recurses on the fully processed transcript. -/
theorem toolResultTurns_match_requests (tools : List Tool) (tcs : List ToolCallReq)
    (history : List Turn) (outcomes : Nat → RequestOutcome) (fuel calls : Nat)
    (h : call_llm (outcomes calls) = LLMResponse.toolCalls tcs) :
    toolTurnContents (processToolCalls tools tcs history) =
      toolTurnContents history ++ tcs.map (observationOf tools)
    ∧ runLoop tools outcomes (fuel + 1) calls history =
        runLoop tools outcomes fuel (calls + 1) (processToolCalls tools tcs history) :=
  ⟨toolTurnContents_processToolCalls tools tcs history,
   runLoop_toolCalls tools outcomes fuel calls history tcs h⟩

theorem toolResultTurns_match_requests_witness :
    toolTurnContents (processToolCalls [sql_query_tool testEngine] wTcs []) =
      toolTurnContents ([] : List Turn) ++
        wTcs.map (observationOf [sql_query_tool testEngine])
    ∧ runLoop [sql_query_tool testEngine] wOutcomesBatch (3 + 1) 0 [] =
        runLoop [sql_query_tool testEngine] wOutcomesBatch 3 (0 + 1)
          (processToolCalls [sql_query_tool testEngine] wTcs []) :=
  toolResultTurns_match_requests [sql_query_tool testEngine] wTcs [] wOutcomesBatch 3 0 rfl

/-- C2: the loop makes at most one reasoning-service call per iteration,
so a run with budget `N` makes at most `N` calls; when every response lets
the loop continue, the run ends with the fixed budget-exceeded message;
and a `toolCalls` response consumes exactly one budget unit however many
requests its batch contains. -/
theorem step_budget_bounds_llm_calls (tools : List Tool) (prompts : Prompts)
    (outcomes : Nat → RequestOutcome) (task : String) (N fuel calls : Nat)
    (history : List Turn) :
    (runLoop tools outcomes fuel calls history).llmCalls ≤ calls + fuel
    ∧ (ReActAgent.run tools prompts outcomes task N).llmCalls ≤ N
    ∧ ((∀ k, continuesLoop (call_llm (outcomes k)) = true) →
        (runLoop tools outcomes fuel calls history).answer =
          "Max steps reached without providing a final answer."
        ∧ (ReActAgent.run tools prompts outcomes task N).answer =
          "Max steps reached without providing a final answer.")
    ∧ (∀ tcs, call_llm (outcomes calls) = LLMResponse.toolCalls tcs →
        runLoop tools outcomes (fuel + 1) calls history =
          runLoop tools outcomes fuel (calls + 1) (processToolCalls tools tcs history)) := by
  obtain ⟨history₀, hrun⟩ := run_eq_runLoop tools prompts outcomes task N
  refine ⟨runLoop_llmCalls_le tools outcomes fuel calls history, ?_, ?_, ?_⟩
  · rw [hrun]
    simpa using runLoop_llmCalls_le tools outcomes N 0 history₀
  · intro hcont
    refine ⟨runLoop_all_continuing tools outcomes hcont fuel calls history, ?_⟩
    rw [hrun]
    exact runLoop_all_continuing tools outcomes hcont N 0 history₀
  · intro tcs h
    exact runLoop_toolCalls tools outcomes fuel calls history tcs h

theorem step_budget_bounds_llm_calls_witness :
    (runLoop [] wOutcomesText 2 0 []).llmCalls ≤ 0 + 2
    ∧ (ReActAgent.run [] testPrompts wOutcomesText "count the calls" 3).llmCalls ≤ 3
    ∧ (runLoop [] wOutcomesText 2 0 []).answer =
        "Max steps reached without providing a final answer."
    ∧ (ReActAgent.run [] testPrompts wOutcomesText "count the calls" 3).answer =
        "Max steps reached without providing a final answer." := by
  have h := step_budget_bounds_llm_calls [] testPrompts wOutcomesText
    "count the calls" 3 2 0 []
  have hc := h.2.2.1 fun k => rfl
  exact ⟨h.1, h.2.1, hc.1, hc.2⟩

/-- C6: when the reasoning-service round trip fails with a connection
failure, `call_llm` returns an error response whose text carries the
`Connection Error` prefix, and the loop returns the explanatory message at
once — the call counter shows exactly one further call was made, so there
is no retry and no later reasoning-service call in the run. -/
theorem connection_error_terminates_run (tools : List Tool)
    (outcomes : Nat → RequestOutcome) (fuel calls : Nat) (history : List Turn)
    (e : String) (h : outcomes calls = RequestOutcome.connectionError e) :
    runLoop tools outcomes (fuel + 1) calls history =
      ⟨"Agent terminated due to LLM communication error: " ++ ("Connection Error: " ++ e),
        history, calls + 1⟩
    ∧ ∃ a b, (runLoop tools outcomes (fuel + 1) calls history).answer =
        a ++ "Connection Error" ++ b := by
  have hc : call_llm (outcomes calls) = .error ("Connection Error: " ++ e) := by
    rw [h]; rfl
  have h1 := runLoop_error_eq tools outcomes fuel calls history _ hc
  refine ⟨h1, "Agent terminated due to LLM communication error: ", ": " ++ e, ?_⟩
  rw [h1]
  show "Agent terminated due to LLM communication error: " ++ ("Connection Error: " ++ e) = _
  simp [← String.append_assoc]

theorem connection_error_terminates_run_witness :
    runLoop [] (fun _ => RequestOutcome.connectionError "refused") 9 0 [] =
      ⟨"Agent terminated due to LLM communication error: " ++
        ("Connection Error: " ++ "refused"), [], 0 + 1⟩
    ∧ ∃ a b, (runLoop [] (fun _ => RequestOutcome.connectionError "refused") 9 0 []).answer =
        a ++ "Connection Error" ++ b :=
  connection_error_terminates_run [] (fun _ => RequestOutcome.connectionError "refused")
    8 0 [] "refused" rfl

/-- C10: a successful reasoning-service response with neither tool calls
nor content is classified as the distinct `empty` result, on which the
loop returns the fixed unexpected-response message at once; that message
differs from the budget-exceeded message and from every communication
error message. -/
theorem empty_response_terminates_run (tools : List Tool)
    (outcomes : Nat → RequestOutcome) (fuel calls : Nat) (history : List Turn)
    (msg : AssistantMessage) (h : outcomes calls = RequestOutcome.success msg)
    (h1 : msg.tool_calls = []) (h2 : msg.content = "") :
    call_llm (RequestOutcome.success msg) = LLMResponse.empty
    ∧ runLoop tools outcomes (fuel + 1) calls history =
        ⟨"Agent terminated due to unexpected LLM response type.", history, calls + 1⟩
    ∧ "Agent terminated due to unexpected LLM response type." ≠
        "Max steps reached without providing a final answer."
    ∧ ∀ c : String, "Agent terminated due to unexpected LLM response type." ≠
        "Agent terminated due to LLM communication error: " ++ c := by
  have hc : call_llm (RequestOutcome.success msg) = LLMResponse.empty := by
    simp [call_llm, h1, h2]
  refine ⟨hc, ?_, by decide, ?_⟩
  · exact runLoop_empty_eq tools outcomes fuel calls history (by rw [h]; exact hc)
  · intro c heq
    have hd := congrArg (fun s : String => s.data[25]?) heq
    simp only [String.data_append] at hd
    rw [List.getElem?_append_left (by decide)] at hd
    exact absurd hd (by decide)

theorem empty_response_terminates_run_witness :
    call_llm (RequestOutcome.success ⟨[], ""⟩) = LLMResponse.empty
    ∧ runLoop [] (fun _ => RequestOutcome.success ⟨[], ""⟩) (4 + 1) 0 [] =
        ⟨"Agent terminated due to unexpected LLM response type.", [], 0 + 1⟩
    ∧ "Agent terminated due to unexpected LLM response type." ≠
        "Max steps reached without providing a final answer."
    ∧ ∀ c : String, "Agent terminated due to unexpected LLM response type." ≠
        "Agent terminated due to LLM communication error: " ++ c :=
  empty_response_terminates_run [] (fun _ => RequestOutcome.success ⟨[], ""⟩)
    4 0 [] ⟨[], ""⟩ rfl rfl rfl

/-- C7: a call request naming an unregistered tool, and one whose argument
payload fails to parse, each append a single observation turn — the former
containing an explicit `not found` message — and the loop then proceeds to
the next reasoning-service call; both are total value-level branches of
`processToolCall`, so neither ends the run. -/
theorem unknown_tool_and_malformed_args_recoverable (tools : List Tool)
    (history : List Turn) (tc tc' : ToolCallReq) (t : Tool)
    (outcomes : Nat → RequestOutcome) (fuel calls : Nat) (tcs : List ToolCallReq) :
    (findTool tools tc.name = Option.none →
      processToolCall tools history tc =
        history ++ [Turn.tool ("Error: Tool '" ++ tc.name ++ "' not found.")]
      ∧ ∃ a b, observationOf tools tc = a ++ "not found" ++ b)
    ∧ (findTool tools tc'.name = Option.some t → jsonLoads tc'.arguments = Option.none →
        processToolCall tools history tc' =
          history ++ [Turn.tool ("Error parsing tool arguments for " ++ tc'.name ++ ": " ++
            jsonDecodeErrMsg ++ ". Raw arguments: " ++ tc'.arguments)])
    ∧ (call_llm (outcomes calls) = LLMResponse.toolCalls tcs →
        runLoop tools outcomes (fuel + 1) calls history =
          runLoop tools outcomes fuel (calls + 1) (processToolCalls tools tcs history)) := by
  refine ⟨?_, ?_, ?_⟩
  · intro hf
    constructor
    · unfold processToolCall
      rw [hf]
    · refine ⟨"Error: Tool '" ++ tc.name ++ "' ", ".", ?_⟩
      unfold observationOf
      rw [hf]
      simp [String.append_assoc]
  · intro hf hj
    unfold processToolCall
    rw [hf, hj]
  · intro h
    exact runLoop_toolCalls tools outcomes fuel calls history tcs h

theorem unknown_tool_and_malformed_args_recoverable_witness :
    processToolCall [sql_query_tool testEngine] [] ⟨"foo_tool", "\x7b\x7d"⟩ =
      [] ++ [Turn.tool ("Error: Tool '" ++ "foo_tool" ++ "' not found.")]
    ∧ (∃ a b, observationOf [sql_query_tool testEngine] ⟨"foo_tool", "\x7b\x7d"⟩ =
        a ++ "not found" ++ b)
    ∧ processToolCall [sql_query_tool testEngine] [] ⟨"sql_query", "not json"⟩ =
        [] ++ [Turn.tool ("Error parsing tool arguments for " ++ "sql_query" ++ ": " ++
          jsonDecodeErrMsg ++ ". Raw arguments: " ++ "not json")]
    ∧ runLoop [sql_query_tool testEngine] wOutcomesBatch (3 + 1) 0 [] =
        runLoop [sql_query_tool testEngine] wOutcomesBatch 3 (0 + 1)
          (processToolCalls [sql_query_tool testEngine] wTcs []) := by
  have h := unknown_tool_and_malformed_args_recoverable [sql_query_tool testEngine]
    [] ⟨"foo_tool", "\x7b\x7d"⟩ ⟨"sql_query", "not json"⟩ (sql_query_tool testEngine)
    wOutcomesBatch 3 0 wTcs
  have h1 := h.1 rfl
  exact ⟨h1.1, h1.2, h.2.1 rfl rfl, h.2.2 rfl⟩

/-- A tabular result with a single 2100-character cell: its rendering, and
therefore also its first-5-row rendering (the whole table), exceeds the
2000-character threshold. -/
def bigCell : String := ⟨List.replicate 2100 'x'⟩

def bigDF : DataFrame := ⟨["data"], [[bigCell]]⟩

/-- A non-tabular (string) tool result of 2001 characters. -/
def bigScalar : String := ⟨List.replicate 2001 'a'⟩

theorem bigCell_length : bigCell.length = 2100 := by
  show (List.replicate 2100 'x').length = 2100
  exact List.length_replicate 2100 'x'

theorem bigScalar_length : bigScalar.length = 2001 := by
  show (List.replicate 2001 'a').length = 2001
  exact List.length_replicate 2001 'a'

theorem bigDF_toMarkdown_eq :
    bigDF.toMarkdown = "| data |" ++ "\n" ++ "| --- |" ++ "\n" ++ ("| " ++ bigCell ++ " |") := by
  simp [bigDF, DataFrame.toMarkdown, markdownRow, String.intercalate, String.intercalate.go]

theorem bigDF_toMarkdown_length : bigDF.toMarkdown.length = 2121 := by
  rw [bigDF_toMarkdown_eq]
  simp only [String.length_append, bigCell_length]
  rfl

theorem bigDF_head_eq : bigDF.head 5 = bigDF := rfl

/-- C3 counterexample: the formatter output is not bounded by 2000
characters plus the truncation notice.  A tabular result whose first-5-row
rendering is itself over 2000 characters yields a 2181-character
observation (2000 plus the 60-character notice is 2060), and a non-tabular
result is stringified with no bound at all (2001 characters, no notice). -/
theorem observation_length_bound_fails :
    2000 < bigDF.toMarkdown.length
    ∧ formatObservation (ToolResult.dataFrame bigDF) =
        (bigDF.head 5).toMarkdown ++ truncationNotice
    ∧ 2000 + truncationNotice.length <
        (formatObservation (ToolResult.dataFrame bigDF)).length
    ∧ formatObservation (ToolResult.scalar bigScalar) = bigScalar
    ∧ 2000 < (formatObservation (ToolResult.scalar bigScalar)).length := by
  have hgt : bigDF.toMarkdown.length > 2000 := by rw [bigDF_toMarkdown_length]; omega
  have hfmt : formatObservation (ToolResult.dataFrame bigDF) =
      (bigDF.head 5).toMarkdown ++ truncationNotice := by
    simp only [formatObservation]
    rw [if_pos hgt]
  have hnotice : truncationNotice.length = 60 := rfl
  refine ⟨hgt, hfmt, ?_, rfl, ?_⟩
  · rw [hfmt, bigDF_head_eq, String.length_append, bigDF_toMarkdown_length, hnotice]
    omega
  · show 2000 < bigScalar.length
    rw [bigScalar_length]
    omega

/-- C3 as amended: the 2000-character comparison is applied to the full
rendering of a tabular result only — beyond the threshold the observation
is the first-5-row rendering plus the fixed notice (itself unbounded), at
most the threshold the observation equals the untruncated rendering — and
a non-tabular result is stringified directly with no length bound. -/
theorem observation_formatter_truncation (df : DataFrame) (s : String) :
    (2000 < df.toMarkdown.length →
      formatObservation (ToolResult.dataFrame df) =
        (df.head 5).toMarkdown ++ truncationNotice)
    ∧ (df.toMarkdown.length ≤ 2000 →
        formatObservation (ToolResult.dataFrame df) = df.toMarkdown)
    ∧ formatObservation (ToolResult.scalar s) = s := by
  refine ⟨?_, ?_, rfl⟩
  · intro h
    simp only [formatObservation]
    rw [if_pos h]
  · intro h
    simp only [formatObservation]
    rw [if_neg (by omega)]

theorem observation_formatter_truncation_witness :
    (2000 < bigDF.toMarkdown.length
      ∧ formatObservation (ToolResult.dataFrame bigDF) =
          (bigDF.head 5).toMarkdown ++ truncationNotice)
    ∧ formatObservation (ToolResult.scalar "7") = "7" := by
  have h := observation_formatter_truncation bigDF "7"
  have hlen : 2000 < bigDF.toMarkdown.length := by rw [bigDF_toMarkdown_length]; omega
  exact ⟨⟨hlen, h.1 hlen⟩, h.2.2⟩

/-- C8 counterexample: on a validation failure `Tool.run` raises (the
embedding's `Except.error`) a `ValueError` carrying the validation
message — it does not return a structured error value to its caller. -/
theorem tool_run_raises_on_validation_failure :
    Tool.run (sql_query_tool testEngine) [] =
      Except.error ("Tool 'sql_query' argument validation failed: " ++
        "1 validation error for SQLQueryParams: query: Field required") := rfl

/-- C8 as amended: a schema validation failure makes `Tool.run` raise a
`ValueError` whose message carries the `argument validation failed` text;
the orchestrator's blanket exception handler catches it and appends the
`Tool execution failed` observation instead of aborting, and the loop then
proceeds to the next reasoning-service call. -/
theorem validation_failure_caught_as_observation (t : Tool)
    (schema : List (String × PyVal) → Except String (List (String × PyVal)))
    (kwargs : List (String × PyVal)) (e : String) (tools : List Tool)
    (history : List Turn) (tc : ToolCallReq) (outcomes : Nat → RequestOutcome)
    (fuel calls : Nat) (tcs : List ToolCallReq)
    (hs : t.args_schema = Option.some schema) (he : schema kwargs = .error e) :
    t.run kwargs =
      Except.error ("Tool '" ++ t.name ++ "' argument validation failed: " ++ e)
    ∧ (findTool tools tc.name = Option.some t →
        jsonLoads tc.arguments = Option.some (PyVal.dict kwargs) →
        processToolCall tools history tc =
          history ++ [Turn.assistantCall tc.name tc.arguments,
            Turn.tool ("Tool execution failed: " ++
              ("Tool '" ++ t.name ++ "' argument validation failed: " ++ e))])
    ∧ (call_llm (outcomes calls) = LLMResponse.toolCalls tcs →
        runLoop tools outcomes (fuel + 1) calls history =
          runLoop tools outcomes fuel (calls + 1) (processToolCalls tools tcs history)) := by
  have hr : t.run kwargs =
      Except.error ("Tool '" ++ t.name ++ "' argument validation failed: " ++ e) := by
    simp only [Tool.run, hs, he]
  refine ⟨hr, ?_, ?_⟩
  · intro hf hj
    unfold processToolCall
    rw [hf, hj]
    simp only [hr]
    simp
  · intro h
    exact runLoop_toolCalls tools outcomes fuel calls history tcs h

theorem validation_failure_caught_as_observation_witness :
    Tool.run (sql_query_tool testEngine) [] =
      Except.error ("Tool '" ++ "sql_query" ++ "' argument validation failed: " ++
        "1 validation error for SQLQueryParams: query: Field required")
    ∧ processToolCall [sql_query_tool testEngine] [] ⟨"sql_query", "\x7b\x7d"⟩ =
        [] ++ [Turn.assistantCall "sql_query" "\x7b\x7d",
          Turn.tool ("Tool execution failed: " ++
            ("Tool '" ++ "sql_query" ++ "' argument validation failed: " ++
              "1 validation error for SQLQueryParams: query: Field required"))] := by
  have h := validation_failure_caught_as_observation (sql_query_tool testEngine)
    SQLQueryParams.validate [] "1 validation error for SQLQueryParams: query: Field required"
    [sql_query_tool testEngine] [] ⟨"sql_query", "\x7b\x7d"⟩ wOutcomesBatch 0 0 wTcs
    rfl rfl
  exact ⟨h.1, h.2.1 rfl rfl⟩

/-- C9: the response interpreter is a pure function of the response text —
it reads no agent state — so interpreting the same free text any number of
times yields the same classification and extracted fields every time. -/
theorem parse_llm_response_deterministic (s : String) (n : Nat) :
    (List.replicate n s).map parse_llm_response =
      List.replicate n (parse_llm_response s)
    ∧ parse_llm_response s = parse_llm_response s :=
  ⟨List.map_replicate, rfl⟩

/-- Any response beginning, case-insensitively and with no leading
whitespace, with the final-answer marker parses to a final answer whose
content is the text after the marker, stripped. -/
theorem final_answer_marker_general (m rest : String)
    (h : pyLower m = "final answer:") :
    parse_llm_response (m ++ rest) = Parsed.finalAnswer (pyStrip rest) := by
  have hd : m.data.map pyToLower = "final answer:".data := congrArg String.data h
  have hd2 := hd
  have hmk : ("final answer:".data) =
      ['f', 'i', 'n', 'a', 'l', ' ', 'a', 'n', 's', 'w', 'e', 'r', ':'] := rfl
  rw [hmk] at hd2
  -- head decomposition
  obtain ⟨c₀, t₀, hm⟩ : ∃ c₀ t₀, m.data = c₀ :: t₀ := by
    cases hm : m.data with
    | nil => rw [hm] at hd2; simp at hd2
    | cons a b => exact ⟨a, b, rfl⟩
  have hc0 : pyToLower c₀ = 'f' := by
    rw [hm] at hd2
    simp only [List.map_cons, List.cons.injEq] at hd2
    exact hd2.1
  have hc0s : isPySpace c₀ = false := by
    rw [← isPySpace_pyToLower c₀, hc0]; rfl
  -- last-character decomposition
  have hrevmap : m.data.reverse.map pyToLower =
      [':', 'r', 'e', 'w', 's', 'n', 'a', ' ', 'l', 'a', 'n', 'i', 'f'] := by
    rw [List.map_reverse, hd2]
    rfl
  obtain ⟨e, tr, hrev⟩ : ∃ e tr, m.data.reverse = e :: tr := by
    cases hr : m.data.reverse with
    | nil => rw [hr] at hrevmap; simp at hrevmap
    | cons a b => exact ⟨a, b, rfl⟩
  have he : pyToLower e = ':' := by
    rw [hrev] at hrevmap
    simp only [List.map_cons, List.cons.injEq] at hrevmap
    exact hrevmap.1
  have hes : isPySpace e = false := by
    rw [← isPySpace_pyToLower e, he]; rfl
  -- strip of the concatenation keeps the whole marker
  have hstrip : pyStrip (m ++ rest) = ⟨m.data ++ stripTrailing isPySpace rest.data⟩ := by
    show (⟨stripBoth isPySpace (m ++ rest).data⟩ : String) = _
    have hsb : stripBoth isPySpace (m ++ rest).data =
        m.data ++ stripTrailing isPySpace rest.data := by
      rw [String.data_append]
      unfold stripBoth
      have hdw : (m.data ++ rest.data).dropWhile isPySpace = m.data ++ rest.data := by
        rw [hm, List.cons_append]
        exact dropWhile_cons_false _ _ _ hc0s
      rw [hdw]
      exact stripTrailing_append _ _ _ e tr hrev hes
    rw [hsb]
  have hXdata : (pyLower (pyStrip (m ++ rest))).data =
      "final answer:".data ++ (stripTrailing isPySpace rest.data).map pyToLower := by
    rw [hstrip]
    show (m.data ++ stripTrailing isPySpace rest.data).map pyToLower = _
    rw [List.map_append, hd]
  -- branch conditions
  have hthought : pyStartsWith (pyLower (pyStrip (m ++ rest))) "thought:" = false := by
    show ("thought:".data).isPrefixOf (pyLower (pyStrip (m ++ rest))).data = false
    rw [hXdata, hmk]
    have h1 : ("thought:".data) = 't' :: ['h', 'o', 'u', 'g', 'h', 't', ':'] := rfl
    rw [h1, List.cons_append]
    exact isPrefixOf_head_ne _ _ _ _ (by decide)
  have haction : pyStartsWith (pyLower (pyStrip (m ++ rest))) "action:" = false := by
    show ("action:".data).isPrefixOf (pyLower (pyStrip (m ++ rest))).data = false
    rw [hXdata, hmk]
    have h1 : ("action:".data) = 'a' :: ['c', 't', 'i', 'o', 'n', ':'] := rfl
    rw [h1, List.cons_append]
    exact isPrefixOf_head_ne _ _ _ _ (by decide)
  have hfinal : pyStartsWith (pyLower (pyStrip (m ++ rest))) "final answer:" = true := by
    show ("final answer:".data).isPrefixOf (pyLower (pyStrip (m ++ rest))).data = true
    rw [hXdata]
    exact isPrefixOf_append_self _ _
  -- the sliced content is exactly the text after the marker
  have hlen : m.data.length = 13 := by
    have h1 := congrArg List.length hd2
    simpa using h1
  have hdrop : pyDropChars 13 (m ++ rest) = rest := by
    show (⟨(m ++ rest).data.drop 13⟩ : String) = rest
    rw [String.data_append, ← hlen, List.drop_left]
  unfold parse_llm_response
  simp only [hthought, haction, hfinal, hdrop, Bool.false_eq_true, if_false, if_true]

/-- C4 counterexample: a response with leading whitespace before the
marker is still classified as a final answer, but its content keeps
marker residue, because line 84 of react_agent.py slices the unstripped
response at index 13 after checking the prefix on the stripped text. -/
theorem final_answer_leading_whitespace_content :
    parse_llm_response " Final Answer: 42" = Parsed.finalAnswer ": 42"
    ∧ Parsed.finalAnswer ": 42" ≠ Parsed.finalAnswer "42" :=
  ⟨rfl, by simp⟩

/-- C4 as amended: for every response that begins case-insensitively with
`Final Answer:` with no leading whitespace, the interpreter yields a final
answer whose content is everything after the marker, stripped; in
particular `"Final Answer: 42"` parses to content `"42"`, and a run whose
reasoning service answers with that text returns `"42"`. -/
theorem final_answer_marker_parsing (m rest : String)
    (h : pyLower m = "final answer:") :
    parse_llm_response (m ++ rest) = Parsed.finalAnswer (pyStrip rest)
    ∧ parse_llm_response "Final Answer: 42" = Parsed.finalAnswer "42"
    ∧ (ReActAgent.run [] testPrompts
        (fun _ => RequestOutcome.success ⟨[], "Final Answer: 42"⟩)
        "what is 2 + 40?").answer = "42" :=
  ⟨final_answer_marker_general m rest h, rfl, rfl⟩

theorem final_answer_marker_parsing_witness :
    parse_llm_response ("FINAL Answer:" ++ " 42") = Parsed.finalAnswer (pyStrip " 42")
    ∧ parse_llm_response "Final Answer: 42" = Parsed.finalAnswer "42"
    ∧ (ReActAgent.run [] testPrompts
        (fun _ => RequestOutcome.success ⟨[], "Final Answer: 42"⟩)
        "what is 2 + 40?").answer = "42" :=
  final_answer_marker_parsing "FINAL Answer:" " 42" rfl

/-- Any response of the form `Action: name(args)` — a non-empty word-character
tool name and a newline-free argument text — parses to an action naming that
tool, with the argument text handed to the JSON-first extraction. -/
theorem action_marker_general (name args : String)
    (h1 : name.data ≠ []) (h2 : ∀ c ∈ name.data, isWordChar c = true)
    (h3 : ∀ c ∈ args.data, c ≠ '\n') :
    parse_llm_response ("Action: " ++ name ++ "(" ++ args ++ ")") =
      Parsed.action name (parseActionArgs args) := by
  set S : String := "Action: " ++ name ++ "(" ++ args ++ ")" with hS
  obtain ⟨n₀, nt, hn⟩ : ∃ n₀ nt, name.data = n₀ :: nt := by
    cases hnm : name.data with
    | nil => exact absurd hnm h1
    | cons a b => exact ⟨a, b, rfl⟩
  have hn0w : isWordChar n₀ = true := h2 n₀ (by rw [hn]; exact List.mem_cons_self _ _)
  have hn0s : isPySpace n₀ = false := word_not_space _ hn0w
  have hW : S.data = "Action: ".data ++ (name.data ++ ('(' :: (args.data ++ [')']))) := by
    rw [hS]
    simp only [String.data_append, List.append_assoc]
    rfl
  -- strip is the identity: the text starts with 'A' and ends with ')'
  have hstrip : stripBoth isPySpace S.data = S.data := by
    rw [hW]
    unfold stripBoth
    have hdw : ("Action: ".data ++ (name.data ++ ('(' :: (args.data ++ [')'])))).dropWhile
        isPySpace = "Action: ".data ++ (name.data ++ ('(' :: (args.data ++ [')']))) := by
      have : ("Action: ".data) = 'A' :: "ction: ".data := rfl
      rw [this, List.cons_append]
      exact dropWhile_cons_false _ _ _ (by decide)
    rw [hdw]
    have hsplit : "Action: ".data ++ (name.data ++ ('(' :: (args.data ++ [')']))) =
        ("Action: ".data ++ (name.data ++ ('(' :: args.data))) ++ [')'] := by
      simp [List.append_assoc]
    rw [hsplit]
    have := stripTrailing_append isPySpace
      ("Action: ".data ++ (name.data ++ ('(' :: args.data)) ++ [')']) [] ')'
      ("Action: ".data ++ (name.data ++ ('(' :: args.data))).reverse
      (by simp) (by decide)
    simpa using this
  have hps : pyStrip S = S := by
    show (⟨stripBoth isPySpace S.data⟩ : String) = S
    rw [hstrip]
  -- the lowered, stripped text and the branch conditions
  have hXdata : (pyLower (pyStrip S)).data =
      "action: ".data ++ ((name.data ++ ('(' :: (args.data ++ [')']))).map pyToLower) := by
    rw [hps]
    show S.data.map pyToLower = _
    rw [hW, List.map_append]
    rfl
  have hthought : pyStartsWith (pyLower (pyStrip S)) "thought:" = false := by
    show ("thought:".data).isPrefixOf (pyLower (pyStrip S)).data = false
    rw [hXdata]
    have e1 : ("thought:".data) = 't' :: "hought:".data := rfl
    have e2 : ("action: ".data) = 'a' :: "ction: ".data := rfl
    rw [e1, e2, List.cons_append]
    exact isPrefixOf_head_ne _ _ _ _ (by decide)
  have hactionB : pyStartsWith (pyLower (pyStrip S)) "action:" = true := by
    show ("action:".data).isPrefixOf (pyLower (pyStrip S)).data = true
    rw [hXdata]
    have e2 : ("action: ".data) = "action:".data ++ [' '] := rfl
    rw [e2, List.append_assoc]
    exact isPrefixOf_append_self _ _
  -- the regex extraction
  have c1 : (S.data.take 7).map pyToLower = "action:".data := by
    rw [hW, List.take_append_eq_append_take]
    have e1 : ("Action: ".data).take 7 = "Action:".data := rfl
    have e2 : (7 - ("Action: ".data).length) = 0 := rfl
    rw [e1, e2, List.take_zero, List.append_nil]
    rfl
  have hAM : (S.data.drop 7).dropWhile isPySpace =
      name.data ++ ('(' :: (args.data ++ [')'])) := by
    rw [hW, List.drop_append_eq_append_drop]
    have e1 : ("Action: ".data).drop 7 = [' '] := rfl
    have e2 : (7 - ("Action: ".data).length) = 0 := rfl
    rw [e1, e2, List.drop_zero, List.singleton_append, List.dropWhile_cons,
      if_pos (by decide : isPySpace ' ' = true), hn, List.cons_append,
      dropWhile_cons_false _ _ _ hn0s, ← List.cons_append, ← hn]
  have hTW : (name.data ++ ('(' :: (args.data ++ [')']))).takeWhile isWordChar =
      name.data := by
    rw [takeWhile_append_all _ _ _ h2, List.takeWhile_cons,
      if_neg (by decide : ¬isWordChar '(' = true)]
    exact List.append_nil _
  have hDW : (name.data ++ ('(' :: (args.data ++ [')']))).dropWhile isWordChar =
      '(' :: (args.data ++ [')']) := by
    rw [dropWhile_append_all _ _ _ h2]
    exact dropWhile_cons_false _ _ _ (by decide)
  have hline : (args.data ++ [')']).takeWhile (fun c => c ≠ '\n') =
      args.data ++ [')'] := by
    apply takeWhile_all
    intro c hc
    rcases List.mem_append.mp hc with hm | hm
    · simpa using h3 c hm
    · simp only [List.mem_singleton] at hm
      subst hm
      decide
  have hrev : ((args.data ++ [')']).takeWhile (fun c => c ≠ '\n')).reverse.dropWhile
      (fun c => c ≠ ')') = ')' :: args.data.reverse := by
    rw [hline, List.reverse_append]
    show ((')' :: []) ++ args.data.reverse).dropWhile _ = _
    rw [List.cons_append, List.nil_append]
    exact dropWhile_cons_false _ _ _ (by decide)
  have hregex : actionRegexMatch S = Option.some (name, args) := by
    unfold actionRegexMatch
    rw [if_pos c1]
    simp only [hAM, hTW, hDW]
    rw [if_neg (by rw [hn]; simp)]
    simp only [hrev]
    show Option.some (⟨name.data⟩, ⟨args.data.reverse.reverse⟩) = Option.some (name, args)
    rw [List.reverse_reverse]
  unfold parse_llm_response
  simp only [hthought, hactionB, Bool.false_eq_true, if_false, if_true, hregex]

/-- C5: a response beginning with the action marker and `name(args)` syntax
yields the tool name and the argument extraction that first tries the text
as a JSON object literal and falls back to key/value splitting with
literal-or-quote-stripped values; in particular
`"Action: sql_query(query='SELECT 1')"` yields tool `sql_query` and
arguments `query = "SELECT 1"` — the object-literal attempt fails (single
quotes are not JSON), and the fallback strips the quotes. -/
theorem action_extraction (name args : String)
    (h1 : name.data ≠ []) (h2 : ∀ c ∈ name.data, isWordChar c = true)
    (h3 : ∀ c ∈ args.data, c ≠ '\n') :
    parse_llm_response ("Action: " ++ name ++ "(" ++ args ++ ")") =
      Parsed.action name (parseActionArgs args)
    ∧ parse_llm_response "Action: sql_query(query='SELECT 1')" =
        Parsed.action "sql_query" [("query", PyVal.str "SELECT 1")]
    ∧ parseActionArgs "query='SELECT 1'" = [("query", PyVal.str "SELECT 1")]
    ∧ jsonLoads ("\x7b" ++ "query='SELECT 1'" ++ "\x7d") = Option.none :=
  ⟨action_marker_general name args h1 h2 h3, rfl, rfl, rfl⟩

theorem action_extraction_witness :
    parse_llm_response ("Action: " ++ "sql_query" ++ "(" ++ "query='SELECT 1'" ++ ")") =
      Parsed.action "sql_query" (parseActionArgs "query='SELECT 1'")
    ∧ parse_llm_response "Action: sql_query(query='SELECT 1')" =
        Parsed.action "sql_query" [("query", PyVal.str "SELECT 1")]
    ∧ parseActionArgs "query='SELECT 1'" = [("query", PyVal.str "SELECT 1")]
    ∧ jsonLoads ("\x7b" ++ "query='SELECT 1'" ++ "\x7d") = Option.none :=
  action_extraction "sql_query" "query='SELECT 1'" (by decide) (by decide) (by decide)

